import Mathlib

/-!
Verification of the deterministic tax/investment arithmetic of the OfficeGPT
repository (server routes module).  The JavaScript source is shallowly
embedded: numbers become rationals, the sentinel `Infinity` in the last
personal tax bracket becomes an `Option` with `none`, formatted dollar-string
fields become an inductive carrying the numeric value the code later parses
back out of the string, and the stateful `Array.prototype.sort` /
`forEach` pipeline of the investment route becomes explicit list functions.
-/

/-- One row of the personal tax bracket table.  `max = none` embeds the
JavaScript `Infinity` bound of the final bracket. -/
structure TaxBracket where
  bmin : ℚ
  bmax : Option ℚ
  rate : ℚ
deriving DecidableEq, Repr

def PB1 : TaxBracket := ⟨0,      some 51446,  2005/10000⟩

def PB2 : TaxBracket := ⟨51447,  some 55867,  2415/10000⟩

def PB3 : TaxBracket := ⟨55868,  some 102894, 2965/10000⟩

def PB4 : TaxBracket := ⟨102895, some 111733, 3166/10000⟩

def PB5 : TaxBracket := ⟨111734, some 150000, 3716/10000⟩

def PB6 : TaxBracket := ⟨150001, some 173205, 3816/10000⟩

def PB7 : TaxBracket := ⟨173206, some 220000, 4116/10000⟩

def PB8 : TaxBracket := ⟨220001, some 246752, 4216/10000⟩

def PB9 : TaxBracket := ⟨246753, none,        4953/10000⟩

/-- The 2024 combined federal + Ontario bracket table
(`TAX_RATES.PERSONAL_BRACKETS` in the source). -/
def PERSONAL_BRACKETS : List TaxBracket :=
  [PB1, PB2, PB3, PB4, PB5, PB6, PB7, PB8, PB9]

/-- The amount of the remaining income consumed by one bracket:
`Math.min(remainingIncome, bracket.max - bracket.min + 1)`, where for the
unbounded bracket the width is `Infinity` and the minimum is the remaining
income itself. -/
def taxableIn (remaining : ℚ) (b : TaxBracket) : ℚ :=
  match b.bmax with
  | some m => min remaining (m - b.bmin + 1)
  | none => remaining

/-- The bracket-walking loop body of `calculatePersonalTax`: accumulate
`taxableInThisBracket * rate` and decrement the remaining income, stopping
(`break`) once the remaining income is ≤ 0. -/
def taxWalk : List TaxBracket → ℚ → ℚ
  | [], _ => 0
  | b :: rest, remaining =>
      if remaining ≤ 0 then 0
      else taxableIn remaining b * b.rate + taxWalk rest (remaining - taxableIn remaining b)

/-- `calculatePersonalTax` from the source: walk `PERSONAL_BRACKETS` over the
taxable income. -/
def calculatePersonalTax (taxableIncome : ℚ) : ℚ :=
  taxWalk PERSONAL_BRACKETS taxableIncome

lemma taxWalk_nonpos {r : ℚ} (bs : List TaxBracket) (hr : r ≤ 0) : taxWalk bs r = 0 := by
  cases bs with
  | nil => rfl
  | cons b rest => simp [taxWalk, hr]

/-- A bracket row is well formed when its rate is non-negative and its
inclusive width is non-negative. -/
def BracketOK (b : TaxBracket) : Prop :=
  0 ≤ b.rate ∧ ∀ m ∈ b.bmax, 0 ≤ m - b.bmin + 1

lemma taxableIn_nonneg {r : ℚ} (b : TaxBracket) (hb : BracketOK b) (hr : 0 ≤ r) :
    0 ≤ taxableIn r b := by
  unfold taxableIn
  cases hm : b.bmax with
  | none => exact hr
  | some m => exact le_min hr (hb.2 m hm)

lemma sub_taxableIn_nonneg (r : ℚ) (b : TaxBracket) :
    0 ≤ r - taxableIn r b := by
  unfold taxableIn
  cases b.bmax with
  | none => simp
  | some m =>
      rcases le_total r (m - b.bmin + 1) with h | h
      · simp [min_eq_left h]
      · simp [min_eq_right h]
        linarith

lemma taxWalk_nonneg {r : ℚ} (bs : List TaxBracket) (hb : ∀ b ∈ bs, BracketOK b) :
    0 ≤ taxWalk bs r := by
  induction bs generalizing r with
  | nil => simp [taxWalk]
  | cons b rest ih =>
      by_cases hr : r ≤ 0
      · simp [taxWalk, hr]
      · push_neg at hr
        have hok : BracketOK b := hb b (List.mem_cons_self b rest)
        have h1 : 0 ≤ taxableIn r b := taxableIn_nonneg b hok hr.le
        have h2 : 0 ≤ taxWalk rest (r - taxableIn r b) :=
          ih (fun x hx => hb x (List.mem_cons_of_mem b hx))
        simp only [taxWalk, if_neg (not_le.mpr hr)]
        have := mul_nonneg h1 hok.1
        linarith

lemma PERSONAL_BRACKETS_ok : ∀ b ∈ PERSONAL_BRACKETS, BracketOK b := by
  intro b hb
  fin_cases hb
  all_goals refine ⟨by norm_num [PB1, PB2, PB3, PB4, PB5, PB6, PB7, PB8, PB9], ?_⟩
  all_goals intro m hm
  all_goals simp only [PB1, PB2, PB3, PB4, PB5, PB6, PB7, PB8, PB9,
    Option.mem_def, Option.some.injEq] at hm
  all_goals first
    | (subst hm; norm_num [PB1, PB2, PB3, PB4, PB5, PB6, PB7, PB8, PB9])
    | exact absurd hm (by simp)

lemma calculatePersonalTax_nonneg (x : ℚ) : 0 ≤ calculatePersonalTax x :=
  taxWalk_nonneg PERSONAL_BRACKETS PERSONAL_BRACKETS_ok

lemma taxableIn_mono {x y : ℚ} (b : TaxBracket) (hxy : x ≤ y) :
    taxableIn x b ≤ taxableIn y b := by
  unfold taxableIn
  cases b.bmax with
  | none => exact hxy
  | some m => exact min_le_min hxy le_rfl

lemma sub_taxableIn_mono {x y : ℚ} (b : TaxBracket) (hxy : x ≤ y) :
    x - taxableIn x b ≤ y - taxableIn y b := by
  unfold taxableIn
  cases b.bmax with
  | none => simp
  | some m =>
      rcases le_total x (m - b.bmin + 1) with h | h
      · have hx0 : x - min x (m - b.bmin + 1) = 0 := by simp [min_eq_left h]
        rcases le_total y (m - b.bmin + 1) with h2 | h2
        · simp [min_eq_left h, min_eq_left h2]
        · simp [min_eq_left h, min_eq_right h2]
          linarith
      · have h2 : m - b.bmin + 1 ≤ y := le_trans h hxy
        simp [min_eq_right h, min_eq_right h2]
        linarith

lemma taxWalk_mono {x y : ℚ} (bs : List TaxBracket) (hb : ∀ b ∈ bs, BracketOK b)
    (hxy : x ≤ y) : taxWalk bs x ≤ taxWalk bs y := by
  induction bs generalizing x y with
  | nil => simp [taxWalk]
  | cons b rest ih =>
      by_cases hx : x ≤ 0
      · rw [taxWalk_nonpos _ hx]
        exact taxWalk_nonneg _ hb
      · push_neg at hx
        have hy : ¬ y ≤ 0 := not_le.mpr (lt_of_lt_of_le hx hxy)
        have hok : BracketOK b := hb b (List.mem_cons_self b rest)
        simp only [taxWalk, if_neg (not_le.mpr hx), if_neg hy]
        have h1 : taxableIn x b ≤ taxableIn y b := taxableIn_mono b hxy
        have h2 : taxWalk rest (x - taxableIn x b) ≤ taxWalk rest (y - taxableIn y b) :=
          ih (fun c hc => hb c (List.mem_cons_of_mem b hc)) (sub_taxableIn_mono b hxy)
        have h3 : taxableIn x b * b.rate ≤ taxableIn y b * b.rate :=
          mul_le_mul_of_nonneg_right h1 hok.1
        linarith

/-- Modelled from the spec wording of the algorithm: walk brackets in
ascending order carrying a (tax so far, remaining income) pair; for each
bracket tax `min(remaining, max - min + 1)` at the bracket rate and subtract
the consumed amount; once remaining income reaches zero (or below) the walk
stops consuming. -/
def specBracketStep (st : ℚ × ℚ) (b : TaxBracket) : ℚ × ℚ :=
  if st.2 ≤ 0 then st
  else
    let portion :=
      match b.bmax with
      | some m => min st.2 (m - b.bmin + 1)
      | none => st.2
    (st.1 + portion * b.rate, st.2 - portion)

/-- Spec-side description of the bracket walk: fold the step over the table
starting from zero tax and the full income, and return the accumulated tax. -/
def specWalkTax (brackets : List TaxBracket) (income : ℚ) : ℚ :=
  (brackets.foldl specBracketStep (0, income)).1

lemma specBracketStep_stopped {t r : ℚ} (b : TaxBracket) (hr : r ≤ 0) :
    specBracketStep (t, r) b = (t, r) := by
  simp [specBracketStep, hr]

lemma foldl_specBracketStep_stopped {t r : ℚ} (bs : List TaxBracket) (hr : r ≤ 0) :
    bs.foldl specBracketStep (t, r) = (t, r) := by
  induction bs with
  | nil => rfl
  | cons b rest ih => rw [List.foldl_cons, specBracketStep_stopped b hr, ih]

lemma specBracketStep_active {t r : ℚ} (b : TaxBracket) (hr : ¬ r ≤ 0) :
    specBracketStep (t, r) b = (t + taxableIn r b * b.rate, r - taxableIn r b) := by
  simp only [specBracketStep, hr, if_false, taxableIn]

lemma foldl_specBracketStep_fst (bs : List TaxBracket) (t r : ℚ) :
    (bs.foldl specBracketStep (t, r)).1 = t + taxWalk bs r := by
  induction bs generalizing t r with
  | nil => simp [taxWalk]
  | cons b rest ih =>
      by_cases hr : r ≤ 0
      · rw [List.foldl_cons, specBracketStep_stopped b hr,
          foldl_specBracketStep_stopped rest hr, taxWalk_nonpos _ hr]
        simp
      · rw [List.foldl_cons, specBracketStep_active b hr, ih]
        simp only [taxWalk, if_neg hr]
        ring

/-- The embedded loop agrees with the spec-side fold on every bracket table
and every income. -/
lemma taxWalk_eq_specWalkTax (bs : List TaxBracket) (x : ℚ) :
    taxWalk bs x = specWalkTax bs x := by
  rw [specWalkTax, foldl_specBracketStep_fst, zero_add]

lemma taxWalk_skip (x : ℚ) (b : TaxBracket) (rest : List TaxBracket) (m : ℚ)
    (hmax : b.bmax = some m) (hw : 0 < m - b.bmin + 1) (hx : m - b.bmin + 1 ≤ x) :
    taxWalk (b :: rest) x = (m - b.bmin + 1) * b.rate + taxWalk rest (x - (m - b.bmin + 1)) := by
  have hx0 : ¬ x ≤ 0 := not_le.mpr (lt_of_lt_of_le hw hx)
  simp only [taxWalk, if_neg hx0, taxableIn, hmax, min_eq_right hx]

lemma taxWalk_take (x : ℚ) (b : TaxBracket) (rest : List TaxBracket) (m : ℚ)
    (hmax : b.bmax = some m) (h0 : 0 ≤ x) (hx : x ≤ m - b.bmin + 1) :
    taxWalk (b :: rest) x = x * b.rate := by
  rcases eq_or_lt_of_le h0 with h | h
  · rw [taxWalk_nonpos _ (le_of_eq h.symm), ← h, zero_mul]
  · simp only [taxWalk, if_neg (not_le.mpr h), taxableIn, hmax, min_eq_left hx, sub_self,
      taxWalk_nonpos rest le_rfl, add_zero]

lemma taxWalk_last (x : ℚ) (b : TaxBracket) (rest : List TaxBracket)
    (hmax : b.bmax = none) (h0 : 0 ≤ x) :
    taxWalk (b :: rest) x = x * b.rate := by
  rcases eq_or_lt_of_le h0 with h | h
  · rw [taxWalk_nonpos _ (le_of_eq h.symm), ← h, zero_mul]
  · simp only [taxWalk, if_neg (not_le.mpr h), taxableIn, hmax, sub_self,
      taxWalk_nonpos rest le_rfl, add_zero]

lemma taxWalk_PB1_skip (x : ℚ) (rest : List TaxBracket) (hx : 51447 ≤ x) :
    taxWalk (PB1 :: rest) x = 51447 * (2005/10000) + taxWalk rest (x - 51447) := by
  rw [taxWalk_skip x PB1 rest 51446 rfl (by norm_num [PB1]) (by norm_num [PB1]; linarith)]
  norm_num [PB1]

lemma taxWalk_PB2_skip (x : ℚ) (rest : List TaxBracket) (hx : 4421 ≤ x) :
    taxWalk (PB2 :: rest) x = 4421 * (2415/10000) + taxWalk rest (x - 4421) := by
  rw [taxWalk_skip x PB2 rest 55867 rfl (by norm_num [PB2]) (by norm_num [PB2]; linarith)]
  norm_num [PB2]

lemma taxWalk_PB3_skip (x : ℚ) (rest : List TaxBracket) (hx : 47027 ≤ x) :
    taxWalk (PB3 :: rest) x = 47027 * (2965/10000) + taxWalk rest (x - 47027) := by
  rw [taxWalk_skip x PB3 rest 102894 rfl (by norm_num [PB3]) (by norm_num [PB3]; linarith)]
  norm_num [PB3]

lemma taxWalk_PB4_skip (x : ℚ) (rest : List TaxBracket) (hx : 8839 ≤ x) :
    taxWalk (PB4 :: rest) x = 8839 * (3166/10000) + taxWalk rest (x - 8839) := by
  rw [taxWalk_skip x PB4 rest 111733 rfl (by norm_num [PB4]) (by norm_num [PB4]; linarith)]
  norm_num [PB4]

lemma taxWalk_PB5_skip (x : ℚ) (rest : List TaxBracket) (hx : 38267 ≤ x) :
    taxWalk (PB5 :: rest) x = 38267 * (3716/10000) + taxWalk rest (x - 38267) := by
  rw [taxWalk_skip x PB5 rest 150000 rfl (by norm_num [PB5]) (by norm_num [PB5]; linarith)]
  norm_num [PB5]

lemma taxWalk_PB6_skip (x : ℚ) (rest : List TaxBracket) (hx : 23205 ≤ x) :
    taxWalk (PB6 :: rest) x = 23205 * (3816/10000) + taxWalk rest (x - 23205) := by
  rw [taxWalk_skip x PB6 rest 173205 rfl (by norm_num [PB6]) (by norm_num [PB6]; linarith)]
  norm_num [PB6]

lemma taxWalk_PB7_skip (x : ℚ) (rest : List TaxBracket) (hx : 46795 ≤ x) :
    taxWalk (PB7 :: rest) x = 46795 * (4116/10000) + taxWalk rest (x - 46795) := by
  rw [taxWalk_skip x PB7 rest 220000 rfl (by norm_num [PB7]) (by norm_num [PB7]; linarith)]
  norm_num [PB7]

lemma taxWalk_PB8_skip (x : ℚ) (rest : List TaxBracket) (hx : 26752 ≤ x) :
    taxWalk (PB8 :: rest) x = 26752 * (4216/10000) + taxWalk rest (x - 26752) := by
  rw [taxWalk_skip x PB8 rest 246752 rfl (by norm_num [PB8]) (by norm_num [PB8]; linarith)]
  norm_num [PB8]

lemma taxWalk_PB1_take (x : ℚ) (rest : List TaxBracket) (h0 : 0 ≤ x) (hx : x ≤ 51447) :
    taxWalk (PB1 :: rest) x = x * (2005/10000) :=
  taxWalk_take x PB1 rest 51446 rfl h0 (by norm_num [PB1]; linarith)

lemma taxWalk_PB2_take (x : ℚ) (rest : List TaxBracket) (h0 : 0 ≤ x) (hx : x ≤ 4421) :
    taxWalk (PB2 :: rest) x = x * (2415/10000) :=
  taxWalk_take x PB2 rest 55867 rfl h0 (by norm_num [PB2]; linarith)

lemma taxWalk_PB3_take (x : ℚ) (rest : List TaxBracket) (h0 : 0 ≤ x) (hx : x ≤ 47027) :
    taxWalk (PB3 :: rest) x = x * (2965/10000) :=
  taxWalk_take x PB3 rest 102894 rfl h0 (by norm_num [PB3]; linarith)

lemma taxWalk_PB4_take (x : ℚ) (rest : List TaxBracket) (h0 : 0 ≤ x) (hx : x ≤ 8839) :
    taxWalk (PB4 :: rest) x = x * (3166/10000) :=
  taxWalk_take x PB4 rest 111733 rfl h0 (by norm_num [PB4]; linarith)

lemma taxWalk_PB5_take (x : ℚ) (rest : List TaxBracket) (h0 : 0 ≤ x) (hx : x ≤ 38267) :
    taxWalk (PB5 :: rest) x = x * (3716/10000) :=
  taxWalk_take x PB5 rest 150000 rfl h0 (by norm_num [PB5]; linarith)

lemma taxWalk_PB6_take (x : ℚ) (rest : List TaxBracket) (h0 : 0 ≤ x) (hx : x ≤ 23205) :
    taxWalk (PB6 :: rest) x = x * (3816/10000) :=
  taxWalk_take x PB6 rest 173205 rfl h0 (by norm_num [PB6]; linarith)

lemma taxWalk_PB7_take (x : ℚ) (rest : List TaxBracket) (h0 : 0 ≤ x) (hx : x ≤ 46795) :
    taxWalk (PB7 :: rest) x = x * (4116/10000) :=
  taxWalk_take x PB7 rest 220000 rfl h0 (by norm_num [PB7]; linarith)

lemma taxWalk_PB8_take (x : ℚ) (rest : List TaxBracket) (h0 : 0 ≤ x) (hx : x ≤ 26752) :
    taxWalk (PB8 :: rest) x = x * (4216/10000) :=
  taxWalk_take x PB8 rest 246752 rfl h0 (by norm_num [PB8]; linarith)

lemma taxWalk_PB9_last (x : ℚ) (rest : List TaxBracket) (h0 : 0 ≤ x) :
    taxWalk (PB9 :: rest) x = x * (4953/10000) :=
  taxWalk_last x PB9 rest rfl h0

lemma taxPiece1 (x : ℚ) (hlo : 0 ≤ x) (hhi : x ≤ 51447) :
    calculatePersonalTax x = x * (2005/10000) := by
  unfold calculatePersonalTax PERSONAL_BRACKETS
  rw [taxWalk_PB1_take x _ hlo hhi]

lemma taxPiece2 (x : ℚ) (hlo : 51447 ≤ x) (hhi : x ≤ 55868) :
    calculatePersonalTax x = 51447 * (2005/10000) + (x - 51447) * (2415/10000) := by
  unfold calculatePersonalTax PERSONAL_BRACKETS
  rw [taxWalk_PB1_skip x _ (by linarith),
    taxWalk_PB2_take (x - 51447) _ (by linarith) (by linarith)]

lemma taxPiece3 (x : ℚ) (hlo : 55868 ≤ x) (hhi : x ≤ 102895) :
    calculatePersonalTax x = 51447 * (2005/10000) + 4421 * (2415/10000)
      + (x - 55868) * (2965/10000) := by
  unfold calculatePersonalTax PERSONAL_BRACKETS
  rw [taxWalk_PB1_skip x _ (by linarith),
    taxWalk_PB2_skip (x - 51447) _ (by linarith),
    taxWalk_PB3_take (x - 51447 - 4421) _ (by linarith) (by linarith)]
  ring

lemma taxPiece4 (x : ℚ) (hlo : 102895 ≤ x) (hhi : x ≤ 111734) :
    calculatePersonalTax x = 51447 * (2005/10000) + 4421 * (2415/10000)
      + 47027 * (2965/10000) + (x - 102895) * (3166/10000) := by
  unfold calculatePersonalTax PERSONAL_BRACKETS
  rw [taxWalk_PB1_skip x _ (by linarith),
    taxWalk_PB2_skip (x - 51447) _ (by linarith),
    taxWalk_PB3_skip (x - 51447 - 4421) _ (by linarith),
    taxWalk_PB4_take (x - 51447 - 4421 - 47027) _ (by linarith) (by linarith)]
  ring

lemma taxPiece5 (x : ℚ) (hlo : 111734 ≤ x) (hhi : x ≤ 150001) :
    calculatePersonalTax x = 51447 * (2005/10000) + 4421 * (2415/10000)
      + 47027 * (2965/10000) + 8839 * (3166/10000) + (x - 111734) * (3716/10000) := by
  unfold calculatePersonalTax PERSONAL_BRACKETS
  rw [taxWalk_PB1_skip x _ (by linarith),
    taxWalk_PB2_skip (x - 51447) _ (by linarith),
    taxWalk_PB3_skip (x - 51447 - 4421) _ (by linarith),
    taxWalk_PB4_skip (x - 51447 - 4421 - 47027) _ (by linarith),
    taxWalk_PB5_take (x - 51447 - 4421 - 47027 - 8839) _ (by linarith) (by linarith)]
  ring

lemma taxPiece6 (x : ℚ) (hlo : 150001 ≤ x) (hhi : x ≤ 173206) :
    calculatePersonalTax x = 51447 * (2005/10000) + 4421 * (2415/10000)
      + 47027 * (2965/10000) + 8839 * (3166/10000) + 38267 * (3716/10000)
      + (x - 150001) * (3816/10000) := by
  unfold calculatePersonalTax PERSONAL_BRACKETS
  rw [taxWalk_PB1_skip x _ (by linarith),
    taxWalk_PB2_skip (x - 51447) _ (by linarith),
    taxWalk_PB3_skip (x - 51447 - 4421) _ (by linarith),
    taxWalk_PB4_skip (x - 51447 - 4421 - 47027) _ (by linarith),
    taxWalk_PB5_skip (x - 51447 - 4421 - 47027 - 8839) _ (by linarith),
    taxWalk_PB6_take (x - 51447 - 4421 - 47027 - 8839 - 38267) _ (by linarith) (by linarith)]
  ring

lemma taxPiece7 (x : ℚ) (hlo : 173206 ≤ x) (hhi : x ≤ 220001) :
    calculatePersonalTax x = 51447 * (2005/10000) + 4421 * (2415/10000)
      + 47027 * (2965/10000) + 8839 * (3166/10000) + 38267 * (3716/10000)
      + 23205 * (3816/10000) + (x - 173206) * (4116/10000) := by
  unfold calculatePersonalTax PERSONAL_BRACKETS
  rw [taxWalk_PB1_skip x _ (by linarith),
    taxWalk_PB2_skip (x - 51447) _ (by linarith),
    taxWalk_PB3_skip (x - 51447 - 4421) _ (by linarith),
    taxWalk_PB4_skip (x - 51447 - 4421 - 47027) _ (by linarith),
    taxWalk_PB5_skip (x - 51447 - 4421 - 47027 - 8839) _ (by linarith),
    taxWalk_PB6_skip (x - 51447 - 4421 - 47027 - 8839 - 38267) _ (by linarith),
    taxWalk_PB7_take (x - 51447 - 4421 - 47027 - 8839 - 38267 - 23205) _
      (by linarith) (by linarith)]
  ring

lemma taxPiece8 (x : ℚ) (hlo : 220001 ≤ x) (hhi : x ≤ 246753) :
    calculatePersonalTax x = 51447 * (2005/10000) + 4421 * (2415/10000)
      + 47027 * (2965/10000) + 8839 * (3166/10000) + 38267 * (3716/10000)
      + 23205 * (3816/10000) + 46795 * (4116/10000) + (x - 220001) * (4216/10000) := by
  unfold calculatePersonalTax PERSONAL_BRACKETS
  rw [taxWalk_PB1_skip x _ (by linarith),
    taxWalk_PB2_skip (x - 51447) _ (by linarith),
    taxWalk_PB3_skip (x - 51447 - 4421) _ (by linarith),
    taxWalk_PB4_skip (x - 51447 - 4421 - 47027) _ (by linarith),
    taxWalk_PB5_skip (x - 51447 - 4421 - 47027 - 8839) _ (by linarith),
    taxWalk_PB6_skip (x - 51447 - 4421 - 47027 - 8839 - 38267) _ (by linarith),
    taxWalk_PB7_skip (x - 51447 - 4421 - 47027 - 8839 - 38267 - 23205) _ (by linarith),
    taxWalk_PB8_take (x - 51447 - 4421 - 47027 - 8839 - 38267 - 23205 - 46795) _
      (by linarith) (by linarith)]
  ring

lemma taxPiece9 (x : ℚ) (hlo : 246753 ≤ x) :
    calculatePersonalTax x = 51447 * (2005/10000) + 4421 * (2415/10000)
      + 47027 * (2965/10000) + 8839 * (3166/10000) + 38267 * (3716/10000)
      + 23205 * (3816/10000) + 46795 * (4116/10000) + 26752 * (4216/10000)
      + (x - 246753) * (4953/10000) := by
  unfold calculatePersonalTax PERSONAL_BRACKETS
  rw [taxWalk_PB1_skip x _ (by linarith),
    taxWalk_PB2_skip (x - 51447) _ (by linarith),
    taxWalk_PB3_skip (x - 51447 - 4421) _ (by linarith),
    taxWalk_PB4_skip (x - 51447 - 4421 - 47027) _ (by linarith),
    taxWalk_PB5_skip (x - 51447 - 4421 - 47027 - 8839) _ (by linarith),
    taxWalk_PB6_skip (x - 51447 - 4421 - 47027 - 8839 - 38267) _ (by linarith),
    taxWalk_PB7_skip (x - 51447 - 4421 - 47027 - 8839 - 38267 - 23205) _ (by linarith),
    taxWalk_PB8_skip (x - 51447 - 4421 - 47027 - 8839 - 38267 - 23205 - 46795) _
      (by linarith),
    taxWalk_PB9_last (x - 51447 - 4421 - 47027 - 8839 - 38267 - 23205 - 46795 - 26752) _
      (by linarith)]
  ring

/-- Claim C1: for every non-negative taxable income, `calculatePersonalTax`
equals the spec-side walk of the bracket table (taxing
`min(remaining, max - min + 1)` of each bracket at its rate and subtracting
the consumed amount, stopping when the remaining income reaches zero or the
brackets are exhausted); every income ≤ 0 yields tax 0; and income beyond the
last bracket threshold is fully taxed at the last bracket rate 49.53%. -/
theorem personalTax_matches_bracket_walk :
    (∀ x : ℚ, calculatePersonalTax x = specWalkTax PERSONAL_BRACKETS x) ∧
    (∀ x : ℚ, x ≤ 0 → calculatePersonalTax x = 0) ∧
    (∀ x : ℚ, 246753 ≤ x →
      calculatePersonalTax x
        = calculatePersonalTax 246753 + (4953/10000) * (x - 246753)) := by
  refine ⟨fun x => taxWalk_eq_specWalkTax _ x, fun x hx => taxWalk_nonpos _ hx,
    fun x hx => ?_⟩
  rw [taxPiece9 x hx, taxPiece9 246753 le_rfl]
  ring

/-- Concrete instance of the C1 theorem: a negative income is taxed 0, and an
income of 300000 is taxed linearly at 49.53% above the last threshold. -/
theorem personalTax_matches_bracket_walk_witness :
    calculatePersonalTax (-5) = 0 ∧
    calculatePersonalTax 300000
      = calculatePersonalTax 246753 + (4953/10000) * (300000 - 246753) :=
  ⟨personalTax_matches_bracket_walk.2.1 (-5) (by norm_num),
    personalTax_matches_bracket_walk.2.2 300000 (by norm_num)⟩

/-- Claim C2: `calculatePersonalTax` is monotonically non-decreasing on
non-negative incomes, and on each bracket interval `[min, max]` it is linear
with slope equal to the rate of that bracket. -/
theorem personalTax_monotone_piecewise_linear :
    (∀ x y : ℚ, 0 ≤ x → x ≤ y → calculatePersonalTax x ≤ calculatePersonalTax y) ∧
    (∀ b ∈ PERSONAL_BRACKETS, ∀ x : ℚ, b.bmin ≤ x →
      (∀ m : ℚ, b.bmax = some m → x ≤ m) →
      calculatePersonalTax x = calculatePersonalTax b.bmin + b.rate * (x - b.bmin)) := by
  constructor
  · intro x y _ hxy
    exact taxWalk_mono _ PERSONAL_BRACKETS_ok hxy
  · intro b hb x hlo hhi
    fin_cases hb
    · have h1 : (0:ℚ) ≤ x := hlo
      have h2 : x ≤ 51446 := hhi 51446 rfl
      show calculatePersonalTax x = calculatePersonalTax 0 + (2005/10000) * (x - 0)
      rw [taxPiece1 x h1 (by linarith), taxPiece1 0 le_rfl (by norm_num)]
      ring
    · have h1 : (51447:ℚ) ≤ x := hlo
      have h2 : x ≤ 55867 := hhi 55867 rfl
      show calculatePersonalTax x = calculatePersonalTax 51447 + (2415/10000) * (x - 51447)
      rw [taxPiece2 x h1 (by linarith), taxPiece2 51447 le_rfl (by norm_num)]
      ring
    · have h1 : (55868:ℚ) ≤ x := hlo
      have h2 : x ≤ 102894 := hhi 102894 rfl
      show calculatePersonalTax x = calculatePersonalTax 55868 + (2965/10000) * (x - 55868)
      rw [taxPiece3 x h1 (by linarith), taxPiece3 55868 le_rfl (by norm_num)]
      ring
    · have h1 : (102895:ℚ) ≤ x := hlo
      have h2 : x ≤ 111733 := hhi 111733 rfl
      show calculatePersonalTax x = calculatePersonalTax 102895 + (3166/10000) * (x - 102895)
      rw [taxPiece4 x h1 (by linarith), taxPiece4 102895 le_rfl (by norm_num)]
      ring
    · have h1 : (111734:ℚ) ≤ x := hlo
      have h2 : x ≤ 150000 := hhi 150000 rfl
      show calculatePersonalTax x = calculatePersonalTax 111734 + (3716/10000) * (x - 111734)
      rw [taxPiece5 x h1 (by linarith), taxPiece5 111734 le_rfl (by norm_num)]
      ring
    · have h1 : (150001:ℚ) ≤ x := hlo
      have h2 : x ≤ 173205 := hhi 173205 rfl
      show calculatePersonalTax x = calculatePersonalTax 150001 + (3816/10000) * (x - 150001)
      rw [taxPiece6 x h1 (by linarith), taxPiece6 150001 le_rfl (by norm_num)]
      ring
    · have h1 : (173206:ℚ) ≤ x := hlo
      have h2 : x ≤ 220000 := hhi 220000 rfl
      show calculatePersonalTax x = calculatePersonalTax 173206 + (4116/10000) * (x - 173206)
      rw [taxPiece7 x h1 (by linarith), taxPiece7 173206 le_rfl (by norm_num)]
      ring
    · have h1 : (220001:ℚ) ≤ x := hlo
      have h2 : x ≤ 246752 := hhi 246752 rfl
      show calculatePersonalTax x = calculatePersonalTax 220001 + (4216/10000) * (x - 220001)
      rw [taxPiece8 x h1 (by linarith), taxPiece8 220001 le_rfl (by norm_num)]
      ring
    · have h1 : (246753:ℚ) ≤ x := hlo
      show calculatePersonalTax x = calculatePersonalTax 246753 + (4953/10000) * (x - 246753)
      rw [taxPiece9 x h1, taxPiece9 246753 le_rfl]
      ring

/-- Concrete instance of the C2 theorem: monotone between 1000 and 2000, and
linear at rate 24.15% inside the second bracket. -/
theorem personalTax_monotone_piecewise_linear_witness :
    calculatePersonalTax 1000 ≤ calculatePersonalTax 2000 ∧
    calculatePersonalTax 52000
      = calculatePersonalTax 51447 + (2415/10000) * (52000 - 51447) :=
  ⟨personalTax_monotone_piecewise_linear.1 1000 2000 (by norm_num) (by norm_num),
    personalTax_monotone_piecewise_linear.2 PB2 (by simp [PERSONAL_BRACKETS]) 52000
      (by norm_num [PB2])
      (by intro m hm; simp only [PB2, Option.some.injEq] at hm; subst hm; norm_num)⟩

/-- Employee/employer contribution pair returned by the payroll calculators. -/
structure Contrib where
  employee : ℚ
  employer : ℚ
deriving DecidableEq, Repr

/-- CPP contributory earnings:
`Math.min(Math.max(salary - BASIC_EXEMPTION, 0), YMPE - BASIC_EXEMPTION)`. -/
def contributoryEarnings (salary : ℚ) : ℚ :=
  min (max (salary - 3500) 0) (68500 - 3500)

/-- Base CPP contribution: contributory earnings times the 5.95% employee rate. -/
def cpp1 (salary : ℚ) : ℚ := contributoryEarnings salary * (595/10000)

/-- CPP2 earnings: `Math.min(Math.max(salary - YMPE, 0), YAMPE - YMPE)`. -/
def cpp2Earnings (salary : ℚ) : ℚ :=
  min (max (salary - 68500) 0) (73200 - 68500)

/-- CPP2 contribution: CPP2 earnings times the 4% CPP2 rate. -/
def cpp2 (salary : ℚ) : ℚ := cpp2Earnings salary * (4/100)

/-- `calculateCPPContributions` from the source: total employee contribution is
base CPP plus CPP2, and the employer contribution mirrors it. -/
def calculateCPPContributions (salary : ℚ) : Contrib :=
  ⟨cpp1 salary + cpp2 salary, cpp1 salary + cpp2 salary⟩

/-- `calculateEIContributions` from the source: insurable earnings are capped
at the MIE of 63200; employee rate 1.66%, employer rate 2.324%. -/
def calculateEIContributions (salary : ℚ) : Contrib :=
  ⟨min salary 63200 * (166/10000), min salary 63200 * (2324/100000)⟩

/-- Result of `calculateDividendTax`. -/
structure DividendResult where
  tax : ℚ
  grossedUp : ℚ
deriving DecidableEq, Repr

/-- `calculateDividendTax` from the source: gross the dividend up by 15%,
take the marginal personal tax of stacking it on the other income, subtract
the federal (9.0301%) and Ontario (2.9863%) dividend tax credits on the
grossed-up amount, and floor at zero. -/
def calculateDividendTax (dividend : ℚ) (otherIncome : ℚ) : DividendResult :=
  let grossUp := dividend * (15/100)
  let grossedUpDividend := dividend + grossUp
  let totalTaxableIncome := otherIncome + grossedUpDividend
  let grossTax := calculatePersonalTax totalTaxableIncome - calculatePersonalTax otherIncome
  let federalDTC := grossedUpDividend * (90301/1000000)
  let ontarioDTC := grossedUpDividend * (29863/1000000)
  let totalDTC := federalDTC + ontarioDTC
  ⟨max (grossTax - totalDTC) 0, grossedUpDividend⟩

lemma cpp_employee_nonneg (s : ℚ) : 0 ≤ (calculateCPPContributions s).employee := by
  have h1 : 0 ≤ contributoryEarnings s :=
    le_min (le_max_right _ _) (by norm_num)
  have h2 : 0 ≤ cpp2Earnings s :=
    le_min (le_max_right _ _) (by norm_num)
  have := mul_nonneg h1 (by norm_num : (0:ℚ) ≤ 595/10000)
  have := mul_nonneg h2 (by norm_num : (0:ℚ) ≤ 4/100)
  simp only [calculateCPPContributions, cpp1, cpp2]
  linarith

lemma ei_employee_nonneg {s : ℚ} (hs : 0 ≤ s) : 0 ≤ (calculateEIContributions s).employee := by
  have h1 : 0 ≤ min s 63200 := le_min hs (by norm_num)
  simp only [calculateEIContributions]
  positivity

lemma ei_employer_nonneg {s : ℚ} (hs : 0 ≤ s) : 0 ≤ (calculateEIContributions s).employer := by
  have h1 : 0 ≤ min s 63200 := le_min hs (by norm_num)
  simp only [calculateEIContributions]
  positivity

lemma dividendTax_nonneg (d y : ℚ) : 0 ≤ (calculateDividendTax d y).tax :=
  le_max_right _ _

/-- Claim C3: `calculateDividendTax` returns the 15% grossed-up dividend and
the marginal personal tax net of the combined 12.0164% dividend tax credits,
floored at zero; in particular the tax is never negative. -/
theorem dividendTax_formula_and_floor :
    ∀ d y : ℚ, 0 ≤ d → 0 ≤ y →
      (calculateDividendTax d y).grossedUp = d + d * (15/100) ∧
      (calculateDividendTax d y).tax
        = max ((calculatePersonalTax (y + (d + d * (15/100)))
              - calculatePersonalTax y)
            - (90301/1000000 + 29863/1000000) * (d + d * (15/100))) 0 ∧
      0 ≤ (calculateDividendTax d y).tax := by
  intro d y _ _
  refine ⟨rfl, ?_, le_max_right _ _⟩
  simp only [calculateDividendTax]
  ring_nf

/-- Concrete instance of the C3 theorem at dividend 100000 over other
income 50000. -/
theorem dividendTax_formula_and_floor_witness :
    (calculateDividendTax 100000 50000).grossedUp = 100000 + 100000 * (15/100) ∧
    (calculateDividendTax 100000 50000).tax
      = max ((calculatePersonalTax (50000 + (100000 + 100000 * (15/100)))
            - calculatePersonalTax 50000)
          - (90301/1000000 + 29863/1000000) * (100000 + 100000 * (15/100))) 0 ∧
    0 ≤ (calculateDividendTax 100000 50000).tax :=
  dividendTax_formula_and_floor 100000 50000 (by norm_num) (by norm_num)

/-- Claim C8: `calculateCPPContributions` computes the clamped base CPP plus
CPP2 formula with a mirrored employer amount; a salary at or below the basic
exemption contributes 0, and at the YMPE of 68500 the employee contribution
is the full base amount with a CPP2 component of 0. -/
theorem cpp_contributions_formula :
    (∀ s : ℚ,
      (calculateCPPContributions s).employee
        = min (max (s - 3500) 0) (68500 - 3500) * (595/10000)
          + min (max (s - 68500) 0) (73200 - 68500) * (4/100) ∧
      (calculateCPPContributions s).employer = (calculateCPPContributions s).employee ∧
      (s ≤ 3500 → (calculateCPPContributions s).employee = 0)) ∧
    ((calculateCPPContributions 68500).employee = (68500 - 3500) * (595/10000) ∧
      cpp2 68500 = 0) := by
  constructor
  · intro s
    refine ⟨rfl, rfl, ?_⟩
    intro hs
    have h1 : max (s - 3500) 0 = 0 := max_eq_right (by linarith)
    have h2 : max (s - 68500) 0 = 0 := max_eq_right (by linarith)
    have h3 : min (0:ℚ) (68500 - 3500) = 0 := min_eq_left (by norm_num)
    have h4 : min (0:ℚ) (73200 - 68500) = 0 := min_eq_left (by norm_num)
    simp only [calculateCPPContributions, cpp1, cpp2, contributoryEarnings, cpp2Earnings,
      h1, h2, h3, h4]
    ring
  · constructor
    · norm_num [calculateCPPContributions, cpp1, cpp2, contributoryEarnings, cpp2Earnings,
        max_def, min_def]
    · norm_num [cpp2, cpp2Earnings, max_def, min_def]

/-- Concrete instance of the C8 theorem: a salary of 2000 (below the basic
exemption) contributes 0, with the mirrored employer amount. -/
theorem cpp_contributions_formula_witness :
    (calculateCPPContributions 2000).employer = (calculateCPPContributions 2000).employee ∧
    (calculateCPPContributions 2000).employee = 0 :=
  ⟨(cpp_contributions_formula.1 2000).2.1,
    (cpp_contributions_formula.1 2000).2.2 (by norm_num)⟩

/-- Claim C10: the employee CPP contribution is capped at
(68500−3500)·5.95% + (73200−68500)·4% = 4055.50, and reaches exactly that
ceiling for every salary at or above the YAMPE of 73200. -/
theorem cpp_contribution_ceiling :
    ∀ s : ℚ, 0 ≤ s →
      (calculateCPPContributions s).employee ≤ 40555/10 ∧
      (73200 ≤ s → (calculateCPPContributions s).employee = 40555/10) := by
  intro s _
  constructor
  · have h1 : min (max (s - 3500) 0) (68500 - 3500) ≤ 68500 - 3500 := min_le_right _ _
    have h2 : min (max (s - 68500) 0) (73200 - 68500) ≤ 73200 - 68500 := min_le_right _ _
    have h1m := mul_le_mul_of_nonneg_right h1 (by norm_num : (0:ℚ) ≤ 595/10000)
    have h2m := mul_le_mul_of_nonneg_right h2 (by norm_num : (0:ℚ) ≤ 4/100)
    simp only [calculateCPPContributions, cpp1, cpp2, contributoryEarnings, cpp2Earnings]
    linarith
  · intro h73
    have e1 : max (s - 3500) 0 = s - 3500 := max_eq_left (by linarith)
    have e2 : max (s - 68500) 0 = s - 68500 := max_eq_left (by linarith)
    have e3 : min (s - 3500) (68500 - 3500) = 68500 - 3500 := min_eq_right (by linarith)
    have e4 : min (s - 68500) (73200 - 68500) = 73200 - 68500 := min_eq_right (by linarith)
    simp only [calculateCPPContributions, cpp1, cpp2, contributoryEarnings, cpp2Earnings,
      e1, e2, e3, e4]
    norm_num

/-- Concrete instance of the C10 theorem at a salary of 100000, above the
YAMPE, where the ceiling is attained. -/
theorem cpp_contribution_ceiling_witness :
    (calculateCPPContributions 100000).employee ≤ 40555/10 ∧
    (calculateCPPContributions 100000).employee = 40555/10 :=
  ⟨(cpp_contribution_ceiling 100000 (by norm_num)).1,
    (cpp_contribution_ceiling 100000 (by norm_num)).2 (by norm_num)⟩

/-- `getDividendRate` from the investment comparator: a switch over the four
income-bracket labels with a silent default arm (0.2028 in retirement,
0.39 otherwise). -/
def getDividendRate (income : String) (isRetirement : Bool) : ℚ :=
  if isRetirement then
    if income = "Under $50K" then 10/100
    else if income = "$50-100K" then 2028/10000
    else if income = "$100-200K" then 30/100
    else if income = "Over $200K" then 35/100
    else 2028/10000
  else
    if income = "Under $50K" then 15/100
    else if income = "$50-100K" then 25/100
    else if income = "$100-200K" then 39/100
    else if income = "Over $200K" then 45/100
    else 39/100

/-- `getPersonalTaxRate` from the investment comparator, with silent
default 0.2965. -/
def getPersonalTaxRate (income : String) : ℚ :=
  if income = "Under $50K" then 20/100
  else if income = "$50-100K" then 2965/10000
  else if income = "$100-200K" then 35/100
  else if income = "Over $200K" then 45/100
  else 2965/10000

/-- `getRrspRefundRate` from the investment comparator, with silent
default 0.4116. -/
def getRrspRefundRate (income : String) : ℚ :=
  if income = "Under $50K" then 20/100
  else if income = "$50-100K" then 35/100
  else if income = "$100-200K" then 4116/10000
  else if income = "Over $200K" then 50/100
  else 4116/10000

/-- Counterexample to claim C4: on the label "Middle Class", which is outside
the enumerated set, every rate lookup silently returns its default rate
instead of failing — the lookups are total functions into ℚ and have no
error outcome at all. -/
theorem rate_lookup_silent_default_counterexample :
    getDividendRate "Middle Class" false = 39/100 ∧
    getDividendRate "Middle Class" true = 2028/10000 ∧
    getPersonalTaxRate "Middle Class" = 2965/10000 ∧
    getRrspRefundRate "Middle Class" = 4116/10000 := by
  refine ⟨?_, ?_, ?_, ?_⟩ <;> rfl

/-- Claim C4 as amended: for every label outside the enumerated set, the rate
lookups silently return their default rates (0.39 / 0.2028 for dividends,
0.2965 for the personal marginal rate, 0.4116 for the RRSP refund rate)
rather than failing. -/
theorem rate_lookup_silent_default :
    ∀ s : String, s ≠ "Under $50K" → s ≠ "$50-100K" → s ≠ "$100-200K" → s ≠ "Over $200K" →
      getDividendRate s false = 39/100 ∧
      getDividendRate s true = 2028/10000 ∧
      getPersonalTaxRate s = 2965/10000 ∧
      getRrspRefundRate s = 4116/10000 := by
  intro s h1 h2 h3 h4
  refine ⟨?_, ?_, ?_, ?_⟩ <;>
    simp only [getDividendRate, getPersonalTaxRate, getRrspRefundRate,
      if_neg h1, if_neg h2, if_neg h3, if_neg h4, Bool.false_eq_true, if_false, if_true]

/-- Concrete instance of the amended C4 theorem at the label "Banana". -/
theorem rate_lookup_silent_default_witness :
    getDividendRate "Banana" false = 39/100 ∧
    getDividendRate "Banana" true = 2028/10000 ∧
    getPersonalTaxRate "Banana" = 2965/10000 ∧
    getRrspRefundRate "Banana" = 4116/10000 :=
  rate_lookup_silent_default "Banana" (by decide) (by decide) (by decide) (by decide)

/-- The numeric content of one salary/dividend strategy row.  The source
formats these as locale dollar strings with `Math.round`; the embedding keeps
the raw amounts the formatting is applied to. -/
structure SplitStrategy where
  salary : ℚ
  dividends : ℚ
  corporateTax : ℚ
  personalTax : ℚ
  totalTax : ℚ
  netIncome : ℚ
  effectiveTaxRate : ℚ
  rrspRoom : ℚ
  cppContributions : ℚ
  corporateRetained : ℚ
deriving DecidableEq, Repr

/-- `calculateSmartSplitStrategy` from the source: personal income tax on the
salary, dividend tax on the dividend stacked on the salary, CPP/EI on the
salary, corporate tax at the 12.2% small-business rate on what is left of the
net business income after the salary expense, and the derived totals. -/
def calculateSmartSplitStrategy (salary dividend netBusinessIncome : ℚ) : SplitStrategy :=
  let cpp := calculateCPPContributions salary
  let ei := calculateEIContributions salary
  let personalIncomeTax := calculatePersonalTax salary
  let dividendResult := calculateDividendTax dividend salary
  let totalSalaryExpense := salary + cpp.employer + ei.employer
  let corporateIncomeAfterSalary := max (netBusinessIncome - totalSalaryExpense) 0
  let corporateTax := corporateIncomeAfterSalary * (122/1000)
  let retainedEarnings := corporateIncomeAfterSalary - corporateTax
  let rrspRoom := min (salary * (18/100)) 31560
  let totalPersonalTax := personalIncomeTax + dividendResult.tax
  let totalPayrollTaxes := cpp.employee + ei.employee + cpp.employer + ei.employer
  let totalTax := totalPersonalTax + totalPayrollTaxes + corporateTax
  let netCash := salary + dividend
    - (personalIncomeTax + dividendResult.tax + cpp.employee + ei.employee)
  let personalTaxBurden := personalIncomeTax + dividendResult.tax + cpp.employee + ei.employee
  let personalWithdrawal := salary + dividend
  let effectivePersonalRate :=
    if 0 < personalWithdrawal then personalTaxBurden / personalWithdrawal * 100 else 0
  { salary := salary
    dividends := dividend
    corporateTax := corporateTax
    personalTax := totalPersonalTax + cpp.employee + ei.employee
    totalTax := totalTax
    netIncome := netCash
    effectiveTaxRate := effectivePersonalRate
    rrspRoom := rrspRoom
    cppContributions := cpp.employee + cpp.employer
    corporateRetained := max (retainedEarnings - dividend) 0 }

lemma smartSplit_totalTax_nonneg {s d n : ℚ} (hs : 0 ≤ s) :
    0 ≤ (calculateSmartSplitStrategy s d n).totalTax := by
  have h1 : 0 ≤ calculatePersonalTax s := calculatePersonalTax_nonneg s
  have h2 : 0 ≤ (calculateDividendTax d s).tax := dividendTax_nonneg d s
  have h3 : 0 ≤ (calculateCPPContributions s).employee := cpp_employee_nonneg s
  have h4 : 0 ≤ (calculateCPPContributions s).employer := cpp_employee_nonneg s
  have h5 : 0 ≤ (calculateEIContributions s).employee := ei_employee_nonneg hs
  have h6 : 0 ≤ (calculateEIContributions s).employer := ei_employer_nonneg hs
  have h7 : (0:ℚ) ≤ max (n - (s + (calculateCPPContributions s).employer
      + (calculateEIContributions s).employer)) 0 * (122/1000) :=
    mul_nonneg (le_max_right _ _) (by norm_num)
  simp only [calculateSmartSplitStrategy]
  linarith

lemma smartSplit_netIncome_le {s d n : ℚ} (hs : 0 ≤ s) :
    (calculateSmartSplitStrategy s d n).netIncome ≤ s + d := by
  have h1 : 0 ≤ calculatePersonalTax s := calculatePersonalTax_nonneg s
  have h2 : 0 ≤ (calculateDividendTax d s).tax := dividendTax_nonneg d s
  have h3 : 0 ≤ (calculateCPPContributions s).employee := cpp_employee_nonneg s
  have h5 : 0 ≤ (calculateEIContributions s).employee := ei_employee_nonneg hs
  simp only [calculateSmartSplitStrategy]
  linarith

/-- Claim C9: for every non-negative net business income and withdrawal
amount, the "100% Salary" strategy (all salary) and the "100% Dividend"
strategy (all dividend) both report a non-negative total tax and a net income
at most the withdrawal amount. -/
theorem smartSplit_salary_and_dividend_strategies_sound :
    ∀ netBusinessIncome w : ℚ, 0 ≤ netBusinessIncome → 0 ≤ w →
      0 ≤ (calculateSmartSplitStrategy w 0 netBusinessIncome).totalTax ∧
      (calculateSmartSplitStrategy w 0 netBusinessIncome).netIncome ≤ w ∧
      0 ≤ (calculateSmartSplitStrategy 0 w netBusinessIncome).totalTax ∧
      (calculateSmartSplitStrategy 0 w netBusinessIncome).netIncome ≤ w := by
  intro n w _ hw
  refine ⟨smartSplit_totalTax_nonneg hw, ?_, smartSplit_totalTax_nonneg le_rfl, ?_⟩
  · have := smartSplit_netIncome_le (d := 0) (n := n) hw
    linarith
  · have := smartSplit_netIncome_le (s := 0) (d := w) (n := n) le_rfl
    linarith

/-- Concrete instance of the C9 theorem at a net business income of 200000
and a withdrawal of 100000. -/
theorem smartSplit_salary_and_dividend_strategies_sound_witness :
    0 ≤ (calculateSmartSplitStrategy 100000 0 200000).totalTax ∧
    (calculateSmartSplitStrategy 100000 0 200000).netIncome ≤ 100000 ∧
    0 ≤ (calculateSmartSplitStrategy 0 100000 200000).totalTax ∧
    (calculateSmartSplitStrategy 0 100000 200000).netIncome ≤ 100000 :=
  smartSplit_salary_and_dividend_strategies_sound 200000 100000 (by norm_num) (by norm_num)

/-- Input record of `calculateInvestmentStrategies`.  The source receives the
time horizon as the string "N years" and parses out the integer; the
embedding carries the parsed number of years directly. -/
structure InvestmentInput where
  investmentAmount : ℚ
  rrspRoom : ℚ
  currentIncomeLevel : String
  withdrawalIncomeLevel : String
  years : ℕ
deriving DecidableEq, Repr

/-- Compound growth factor `Math.pow(1.07, years)`. -/
def growthFactor (years : ℕ) : ℚ := (107/100) ^ years

/-- JavaScript `Math.round`: round half toward positive infinity. -/
def jround (q : ℚ) : ℚ := ⌊q + 1/2⌋

/-- A dollar field of an investment strategy row.  `amount v` embeds a
formatted dollar string whose numeric content (after the `Math.round`
applied by the source where it formats) is `v`; `notAvailable` embeds the
literal string "Not Available". -/
inductive MoneyField where
  | notAvailable : MoneyField
  | amount : ℚ → MoneyField
deriving DecidableEq, Repr

/-- The effective-tax-rate field.  `pct v` embeds a finite percentage string,
`na` embeds the literal "N/A", and `undef` embeds the non-finite value
(`Infinity` or `NaN`) JavaScript produces when the unguarded division by the
total gains hits a zero denominator. -/
inductive EffRate where
  | pct : ℚ → EffRate
  | na : EffRate
  | undef : EffRate
deriving DecidableEq, Repr

/-- The recommendation field as filled by the route: `pending` is the initial
empty string, `optimal` the "⭐ OPTIMAL" message, `consider d` the
"potentially $d more after-tax cash" message, and `notApplicable` the
"Not applicable - No RRSP contribution room available" message. -/
inductive Advice where
  | pending : Advice
  | optimal : Advice
  | consider : ℚ → Advice
  | notApplicable : Advice
deriving DecidableEq, Repr

/-- One investment strategy row of the comparator output. -/
structure InvStrategy where
  sname : String
  initialInvestment : MoneyField
  finalValue : MoneyField
  totalTaxPaid : MoneyField
  finalCashInPocket : MoneyField
  effectiveTaxRate : EffRate
  recommendation : Advice
deriving DecidableEq, Repr

/-- The effective tax rate `(tax / gains) * 100` with the JavaScript
division semantics made explicit: a zero denominator yields the non-finite
`undef`, not a number. -/
def effRateOf (tax gains : ℚ) : EffRate :=
  if gains = 0 then EffRate.undef else EffRate.pct (tax / gains * 100)

def corpAmount (inp : InvestmentInput) : ℚ := inp.investmentAmount

def corpFinalValue (inp : InvestmentInput) : ℚ :=
  corpAmount inp * growthFactor inp.years

def corpGains (inp : InvestmentInput) : ℚ := corpFinalValue inp - corpAmount inp

def rrspAmount (inp : InvestmentInput) : ℚ := min inp.investmentAmount inp.rrspRoom

def rrspInitialValue (inp : InvestmentInput) : ℚ :=
  rrspAmount inp * growthFactor inp.years

def rrspInitialGains (inp : InvestmentInput) : ℚ := rrspInitialValue inp - rrspAmount inp

def currentDivRate (inp : InvestmentInput) : ℚ := getDividendRate inp.currentIncomeLevel false

def retirementDivRate (inp : InvestmentInput) : ℚ :=
  getDividendRate inp.withdrawalIncomeLevel true

def personalTaxRate (inp : InvestmentInput) : ℚ := getPersonalTaxRate inp.withdrawalIncomeLevel

def rrspRefundRate (inp : InvestmentInput) : ℚ := getRrspRefundRate inp.currentIncomeLevel

def corpTaxableGains (inp : InvestmentInput) : ℚ := corpGains inp * (5/10)

def corpPassiveTax (inp : InvestmentInput) : ℚ := corpTaxableGains inp * (5017/10000)

def refundableRDTOH (inp : InvestmentInput) : ℚ := corpTaxableGains inp * (3067/10000)

def dividendRefund (inp : InvestmentInput) : ℚ :=
  min (refundableRDTOH inp) (corpFinalValue inp * (3833/10000))

def netCorpTax (inp : InvestmentInput) : ℚ := corpPassiveTax inp - dividendRefund inp

def availableForDividend (inp : InvestmentInput) : ℚ :=
  corpFinalValue inp - netCorpTax inp + dividendRefund inp

def personalDivTax (inp : InvestmentInput) : ℚ :=
  availableForDividend inp * retirementDivRate inp

def corpTotalTax (inp : InvestmentInput) : ℚ := netCorpTax inp + personalDivTax inp

def corpFinalCash (inp : InvestmentInput) : ℚ :=
  availableForDividend inp - personalDivTax inp

def extractionTax (inp : InvestmentInput) : ℚ := corpAmount inp * currentDivRate inp

def personalInvestment (inp : InvestmentInput) : ℚ := corpAmount inp - extractionTax inp

def personalFinalValue (inp : InvestmentInput) : ℚ :=
  personalInvestment inp * growthFactor inp.years

def personalGains (inp : InvestmentInput) : ℚ :=
  personalFinalValue inp - personalInvestment inp

def personalCapGainsTax (inp : InvestmentInput) : ℚ :=
  personalGains inp * (5/10) * personalTaxRate inp

def personalTotalTax (inp : InvestmentInput) : ℚ :=
  extractionTax inp + personalCapGainsTax inp

def personalFinalCash (inp : InvestmentInput) : ℚ :=
  personalFinalValue inp - personalCapGainsTax inp

def rrspRefund (inp : InvestmentInput) : ℚ := rrspAmount inp * rrspRefundRate inp

def refundFinalValue (inp : InvestmentInput) : ℚ :=
  rrspRefund inp * growthFactor inp.years

def rrspWithdrawalTax (inp : InvestmentInput) : ℚ :=
  rrspInitialValue inp * personalTaxRate inp

def refundGains (inp : InvestmentInput) : ℚ := refundFinalValue inp - rrspRefund inp

def refundCapGainsTax (inp : InvestmentInput) : ℚ :=
  refundGains inp * (5/10) * personalTaxRate inp

def rrspTotalTax (inp : InvestmentInput) : ℚ :=
  rrspWithdrawalTax inp + refundCapGainsTax inp

def rrspFinalCash (inp : InvestmentInput) : ℚ :=
  (rrspInitialValue inp - rrspWithdrawalTax inp)
    + (refundFinalValue inp - refundCapGainsTax inp)

/-- The "Corporate Investment" row.  The `initialInvestment` string is
formatted without rounding in the source; the rounded fields carry `jround`
of the value the source rounds when formatting. -/
def corpStrategy (inp : InvestmentInput) : InvStrategy :=
  { sname := "Corporate Investment"
    initialInvestment := MoneyField.amount (corpAmount inp)
    finalValue := MoneyField.amount (jround (corpFinalValue inp))
    totalTaxPaid := MoneyField.amount (jround (corpTotalTax inp))
    finalCashInPocket := MoneyField.amount (jround (corpFinalCash inp))
    effectiveTaxRate := effRateOf (corpTotalTax inp) (corpGains inp)
    recommendation := Advice.pending }

/-- The "Personal Investment" row. -/
def personalStrategy (inp : InvestmentInput) : InvStrategy :=
  { sname := "Personal Investment"
    initialInvestment := MoneyField.amount (jround (personalInvestment inp))
    finalValue := MoneyField.amount (jround (personalFinalValue inp))
    totalTaxPaid := MoneyField.amount (jround (personalTotalTax inp))
    finalCashInPocket := MoneyField.amount (jround (personalFinalCash inp))
    effectiveTaxRate := effRateOf (personalTotalTax inp) (personalGains inp)
    recommendation := Advice.pending }

/-- The "RRSP Strategy" row: numeric only when contribution room is positive,
otherwise every cash field is the "Not Available" sentinel.  (The available
available-branch `initialInvestment` is a composite "RRSP + Refund" string in the
source; the embedding keeps its leading RRSP amount.) -/
def rrspStrategyRow (inp : InvestmentInput) : InvStrategy :=
  if 0 < inp.rrspRoom then
    { sname := "RRSP Strategy"
      initialInvestment := MoneyField.amount (rrspAmount inp)
      finalValue := MoneyField.amount (jround (rrspInitialValue inp + refundFinalValue inp))
      totalTaxPaid := MoneyField.amount (jround (rrspTotalTax inp))
      finalCashInPocket := MoneyField.amount (jround (rrspFinalCash inp))
      effectiveTaxRate := effRateOf (rrspTotalTax inp) (rrspInitialGains inp + refundGains inp)
      recommendation := Advice.pending }
  else
    { sname := "RRSP Strategy"
      initialInvestment := MoneyField.notAvailable
      finalValue := MoneyField.notAvailable
      totalTaxPaid := MoneyField.notAvailable
      finalCashInPocket := MoneyField.notAvailable
      effectiveTaxRate := EffRate.na
      recommendation := Advice.pending }

/-- `calculateInvestmentStrategies` from the source: the three strategy rows
in their fixed order. -/
def calculateInvestmentStrategies (inp : InvestmentInput) : List InvStrategy :=
  [corpStrategy inp, personalStrategy inp, rrspStrategyRow inp]

/-- Whether the `finalCashInPocket` of a row is the "Not Available" sentinel —
the predicate of the two route filters. -/
def isNA (s : InvStrategy) : Bool :=
  match s.finalCashInPocket with
  | MoneyField.notAvailable => true
  | MoneyField.amount _ => false

/-- The number the sort comparator of the route parses back out of the formatted
`finalCashInPocket` string.  Only rows that passed the availability filter
are ever parsed, so the `notAvailable` arm is unreachable there; it is given
the value 0. -/
def cashKey (s : InvStrategy) : ℚ :=
  match s.finalCashInPocket with
  | MoneyField.notAvailable => 0
  | MoneyField.amount v => v

/-- `availableStrategies` from the route: rows whose cash field is not the
"Not Available" sentinel. -/
def availableStrategies (inp : InvestmentInput) : List InvStrategy :=
  (calculateInvestmentStrategies inp).filter (fun s => ! isNA s)

/-- `unavailableStrategies` from the route. -/
def unavailableStrategies (inp : InvestmentInput) : List InvStrategy :=
  (calculateInvestmentStrategies inp).filter (fun s => isNA s)

/-- Stable insertion of a row into a list sorted by descending cash value,
modelling the comparator `(a, b) => cashB - cashA` of the stable
`Array.prototype.sort`. -/
def insertDesc (x : InvStrategy) : List InvStrategy → List InvStrategy
  | [] => [x]
  | y :: ys => if cashKey y ≤ cashKey x then x :: y :: ys else y :: insertDesc x ys

/-- Stable sort by descending cash value. -/
def sortDesc : List InvStrategy → List InvStrategy
  | [] => []
  | x :: xs => insertDesc x (sortDesc xs)

/-- The `forEach` of the route over the sorted available rows: the first row is
marked optimal, every later row gets the cash difference to the first. -/
def addRecommendations : List InvStrategy → List InvStrategy
  | [] => []
  | top :: rest =>
      { top with recommendation := Advice.optimal }
        :: rest.map (fun s => { s with recommendation := Advice.consider (cashKey top - cashKey s) })

/-- The `forEach` of the route over the unavailable rows. -/
def markNotApplicable (l : List InvStrategy) : List InvStrategy :=
  l.map (fun s => { s with recommendation := Advice.notApplicable })

/-- `sortedStrategies` from the route: ranked available rows followed by the
unavailable rows. -/
def sortedStrategies (inp : InvestmentInput) : List InvStrategy :=
  addRecommendations (sortDesc (availableStrategies inp))
    ++ markNotApplicable (unavailableStrategies inp)

lemma mem_insertDesc {z x : InvStrategy} {l : List InvStrategy}
    (hz : z ∈ insertDesc x l) : z = x ∨ z ∈ l := by
  induction l with
  | nil => simpa [insertDesc] using hz
  | cons y ys ih =>
      by_cases hc : cashKey y ≤ cashKey x
      · simp only [insertDesc, if_pos hc, List.mem_cons] at hz
        rcases hz with h | h | h
        · exact Or.inl h
        · exact Or.inr (by simp [h])
        · exact Or.inr (List.mem_cons_of_mem y h)
      · simp only [insertDesc, if_neg hc, List.mem_cons] at hz
        rcases hz with h | h
        · exact Or.inr (by simp [h])
        · rcases ih h with h2 | h2
          · exact Or.inl h2
          · exact Or.inr (List.mem_cons_of_mem y h2)

lemma pairwise_insertDesc {x : InvStrategy} {l : List InvStrategy}
    (hl : l.Pairwise (fun a b => cashKey b ≤ cashKey a)) :
    (insertDesc x l).Pairwise (fun a b => cashKey b ≤ cashKey a) := by
  induction l with
  | nil => simp [insertDesc]
  | cons y ys ih =>
      rcases List.pairwise_cons.mp hl with ⟨hy, hys⟩
      by_cases hc : cashKey y ≤ cashKey x
      · simp only [insertDesc, if_pos hc]
        refine List.pairwise_cons.mpr ⟨?_, hl⟩
        intro z hz
        rcases List.mem_cons.mp hz with h | h
        · exact h ▸ hc
        · exact le_trans (hy z h) hc
      · simp only [insertDesc, if_neg hc]
        refine List.pairwise_cons.mpr ⟨?_, ih hys⟩
        intro z hz
        rcases mem_insertDesc hz with h | h
        · exact h ▸ (le_of_lt (not_le.mp hc))
        · exact hy z h

lemma pairwise_sortDesc (l : List InvStrategy) :
    (sortDesc l).Pairwise (fun a b => cashKey b ≤ cashKey a) := by
  induction l with
  | nil => simp [sortDesc]
  | cons x xs ih => exact pairwise_insertDesc ih

/-- A 0-year input with positive amounts: total nominal gains are zero for
every vehicle. -/
def cx5input : InvestmentInput := ⟨1000, 500, "Under $50K", "Under $50K", 0⟩

/-- A 1-year input used to exercise the non-zero-gains branch. -/
def cx5binput : InvestmentInput := ⟨1000, 0, "Under $50K", "Under $50K", 1⟩

/-- Counterexample to claim C5: at a 0-year horizon the total nominal gains
of every vehicle are zero and the effective-tax-rate division is reached
unguarded, producing the non-finite JavaScript value (embedded as `undef`)
instead of a defined percentage. -/
theorem effRate_zero_gains_counterexample :
    (corpStrategy cx5input).effectiveTaxRate = EffRate.undef ∧
    (personalStrategy cx5input).effectiveTaxRate = EffRate.undef ∧
    (rrspStrategyRow cx5input).effectiveTaxRate = EffRate.undef := by
  refine ⟨?_, ?_, ?_⟩ <;>
    norm_num [cx5input, corpStrategy, personalStrategy, rrspStrategyRow, effRateOf,
      corpTotalTax, corpGains, corpFinalValue, corpAmount, growthFactor,
      personalTotalTax, personalGains, personalFinalValue, personalInvestment,
      extractionTax, currentDivRate, getDividendRate,
      rrspTotalTax, rrspInitialGains, rrspInitialValue, rrspAmount, refundGains,
      refundFinalValue, rrspRefund, rrspRefundRate, getRrspRefundRate, min_def,
      netCorpTax, corpPassiveTax, corpTaxableGains, dividendRefund, refundableRDTOH,
      availableForDividend, personalDivTax, retirementDivRate,
      personalTaxRate, getPersonalTaxRate, rrspWithdrawalTax, refundCapGainsTax,
      personalCapGainsTax]

/-- Claim C5 as amended: the effective-tax-rate field of each vehicle equals total
tax divided by total nominal gains (times 100) whenever the gains are
non-zero, but the division is not guarded: whenever the gains are zero — in
particular for every input with a 0-year horizon — it yields the non-finite
`undef` rather than a defined value. -/
theorem effRate_division_unguarded :
    ∀ inp : InvestmentInput,
      (corpGains inp ≠ 0 → (corpStrategy inp).effectiveTaxRate
          = EffRate.pct (corpTotalTax inp / corpGains inp * 100)) ∧
      (corpGains inp = 0 → (corpStrategy inp).effectiveTaxRate = EffRate.undef) ∧
      (personalGains inp ≠ 0 → (personalStrategy inp).effectiveTaxRate
          = EffRate.pct (personalTotalTax inp / personalGains inp * 100)) ∧
      (personalGains inp = 0 → (personalStrategy inp).effectiveTaxRate = EffRate.undef) ∧
      (0 < inp.rrspRoom →
        (rrspInitialGains inp + refundGains inp ≠ 0 →
          (rrspStrategyRow inp).effectiveTaxRate
            = EffRate.pct (rrspTotalTax inp
                / (rrspInitialGains inp + refundGains inp) * 100)) ∧
        (rrspInitialGains inp + refundGains inp = 0 →
          (rrspStrategyRow inp).effectiveTaxRate = EffRate.undef)) ∧
      (inp.years = 0 → corpGains inp = 0 ∧ personalGains inp = 0 ∧
        rrspInitialGains inp + refundGains inp = 0) := by
  intro inp
  refine ⟨?_, ?_, ?_, ?_, ?_, ?_⟩
  · intro h; simp [corpStrategy, effRateOf, h]
  · intro h; simp [corpStrategy, effRateOf, h]
  · intro h; simp [personalStrategy, effRateOf, h]
  · intro h; simp [personalStrategy, effRateOf, h]
  · intro hroom
    refine ⟨fun h => ?_, fun h => ?_⟩ <;> simp [rrspStrategyRow, hroom, effRateOf, h]
  · intro hy
    refine ⟨?_, ?_, ?_⟩ <;>
      simp [corpGains, corpFinalValue, corpAmount, growthFactor, hy, personalGains,
        personalFinalValue, rrspInitialGains, rrspInitialValue, refundGains,
        refundFinalValue, pow_zero]

/-- Concrete instances of the amended C5 theorem: the defined quotient at a
1-year horizon and the undefined value at a 0-year horizon. -/
theorem effRate_division_unguarded_witness :
    (corpStrategy cx5binput).effectiveTaxRate
      = EffRate.pct (corpTotalTax cx5binput / corpGains cx5binput * 100) ∧
    (corpStrategy cx5input).effectiveTaxRate = EffRate.undef :=
  ⟨(effRate_division_unguarded cx5binput).1
      (by norm_num [cx5binput, corpGains, corpFinalValue, corpAmount, growthFactor]),
    (effRate_division_unguarded cx5input).2.1
      (by norm_num [cx5input, corpGains, corpFinalValue, corpAmount, growthFactor])⟩

lemma cashKey_update_rec (s : InvStrategy) (a : Advice) :
    cashKey { s with recommendation := a } = cashKey s := rfl

/-- Claim C6: when the input has no RRSP room, the four cash fields of the
RRSP row are the "Not Available" sentinel, the row is excluded from the ranked
available list (which then consists of exactly the corporate and personal
rows), and in the final output it appears after the ranked rows carrying a
not-applicable recommendation instead of a cash delta. -/
theorem rrsp_room_zero_not_available :
    ∀ inp : InvestmentInput, inp.rrspRoom = 0 →
      (rrspStrategyRow inp).initialInvestment = MoneyField.notAvailable ∧
      (rrspStrategyRow inp).finalValue = MoneyField.notAvailable ∧
      (rrspStrategyRow inp).totalTaxPaid = MoneyField.notAvailable ∧
      (rrspStrategyRow inp).finalCashInPocket = MoneyField.notAvailable ∧
      availableStrategies inp = [corpStrategy inp, personalStrategy inp] ∧
      sortedStrategies inp
        = addRecommendations (sortDesc [corpStrategy inp, personalStrategy inp])
          ++ [{ rrspStrategyRow inp with recommendation := Advice.notApplicable }] := by
  intro inp h
  have hnot : ¬ 0 < inp.rrspRoom := by simp [h]
  refine ⟨?_, ?_, ?_, ?_, ?_, ?_⟩ <;>
    simp [rrspStrategyRow, hnot, availableStrategies, unavailableStrategies,
      calculateInvestmentStrategies, isNA, corpStrategy, personalStrategy,
      sortedStrategies, markNotApplicable]

/-- Input with zero RRSP room for the C6 witness. -/
def w6input : InvestmentInput := ⟨1000, 0, "Under $50K", "Under $50K", 1⟩

/-- Concrete instance of the C6 theorem at an input with zero RRSP room. -/
theorem rrsp_room_zero_not_available_witness :
    (rrspStrategyRow w6input).finalCashInPocket = MoneyField.notAvailable ∧
    availableStrategies w6input = [corpStrategy w6input, personalStrategy w6input] :=
  ⟨(rrsp_room_zero_not_available w6input rfl).2.2.2.1,
    (rrsp_room_zero_not_available w6input rfl).2.2.2.2.1⟩

/-- Claim C7: in the ranked available portion of the comparator output, the
first row carries the optimal recommendation and its cash value is greater
than or equal to that of every other available row, each of which carries a
recommendation reporting the non-negative cash delta to the first row. -/
theorem ranking_first_is_optimal :
    ∀ (inp : InvestmentInput) (top : InvStrategy) (rest : List InvStrategy),
      addRecommendations (sortDesc (availableStrategies inp)) = top :: rest →
      top.recommendation = Advice.optimal ∧
      ∀ s ∈ rest, cashKey s ≤ cashKey top ∧
        s.recommendation = Advice.consider (cashKey top - cashKey s) ∧
        0 ≤ cashKey top - cashKey s := by
  intro inp top rest h
  cases hs : sortDesc (availableStrategies inp) with
  | nil =>
      rw [hs] at h
      exact absurd h (by simp [addRecommendations])
  | cons h0 t0 =>
      rw [hs] at h
      simp only [addRecommendations, List.cons.injEq] at h
      obtain ⟨htop, hrest⟩ := h
      have hpw := pairwise_sortDesc (availableStrategies inp)
      rw [hs] at hpw
      rcases List.pairwise_cons.mp hpw with ⟨hle, _⟩
      subst htop
      subst hrest
      refine ⟨rfl, ?_⟩
      intro s hsmem
      rcases List.mem_map.mp hsmem with ⟨z, hz, rfl⟩
      have hz1 : cashKey z ≤ cashKey h0 := hle z hz
      exact ⟨hz1, rfl, sub_nonneg.mpr hz1⟩

/-- Input for the C7 witness. -/
def w7input : InvestmentInput := ⟨0, 0, "Under $50K", "Under $50K", 1⟩

/-- The top-ranked row of the comparator output at `w7input`. -/
def w7top : InvStrategy :=
  ⟨"Corporate Investment", MoneyField.amount 0, MoneyField.amount 0, MoneyField.amount 0,
    MoneyField.amount 0, EffRate.undef, Advice.optimal⟩

/-- The second-ranked row of the comparator output at `w7input`. -/
def w7rest1 : InvStrategy :=
  ⟨"Personal Investment", MoneyField.amount 0, MoneyField.amount 0, MoneyField.amount 0,
    MoneyField.amount 0, EffRate.undef, Advice.consider 0⟩

/-- Concrete instance of the C7 theorem at `w7input`. -/
theorem ranking_first_is_optimal_witness :
    w7top.recommendation = Advice.optimal ∧
    cashKey w7rest1 ≤ cashKey w7top ∧
    w7rest1.recommendation = Advice.consider (cashKey w7top - cashKey w7rest1) ∧
    0 ≤ cashKey w7top - cashKey w7rest1 := by
  have h := ranking_first_is_optimal w7input w7top [w7rest1]
    (by norm_num [w7input, w7top, w7rest1, availableStrategies,
      calculateInvestmentStrategies, corpStrategy, personalStrategy, rrspStrategyRow,
      isNA, List.filter, sortDesc, insertDesc, addRecommendations, cashKey, jround,
      effRateOf, growthFactor, corpAmount, corpFinalValue, corpGains, corpTotalTax,
      corpFinalCash, netCorpTax, corpPassiveTax, corpTaxableGains, dividendRefund,
      refundableRDTOH, availableForDividend, personalDivTax, retirementDivRate,
      getDividendRate, currentDivRate, extractionTax, personalInvestment,
      personalFinalValue, personalGains, personalCapGainsTax, personalTotalTax,
      personalFinalCash, personalTaxRate, getPersonalTaxRate, min_def])
  exact ⟨h.1, h.2 w7rest1 (by simp)⟩
